import Mathlib

/-!
Verification of the Orion content-pipeline specification against a shallow
embedding of the Python sources of the repository.

Embedded modules:
* orion/pipeline/run_pipeline.py      (publish gating)
* orion/quality/checker_backup.py     (quality checker, fact extraction, score aggregation)
* orion/automate/run_pipeline.py      (deduplication, single-site jitter)
* orion/automate/run_pipeline_multisite.py (multi-site batch runner)
* orion/automate/multisite.py         (site-list resolution)
* orion/publish/publisher_wp.py       (WordPress publisher dry-run)
* the RulebookUpdater conservative merge, modelled from the spec
  (orion/research/update_rulebook.py is not present in the sources,
  only its tests are).

Machine integers are modelled as Int/Nat; Python floats occurring in the
score aggregation are modelled as rationals.
-/

/-! ## Publish gating (orion/pipeline/run_pipeline.py) -/

/-- Embedding of the enforcement sub-dictionary of quality_result consumed by
PipelineRunner._make_publish_decision: the passed flag and the threshold. -/
structure QualityEnforcement where
  passed : Bool
  threshold : Int
  deriving Repr, DecidableEq

/-- Embedding of the fields of quality_result read by _make_publish_decision. -/
structure QualityResultView where
  score : Int
  enforcement : QualityEnforcement
  deriving Repr, DecidableEq

/-- Embedding of the enforcement dictionary of the rulebook; absent keys are
modelled as none (dict.get with a default). -/
structure EnforcementRules where
  block_publish_if_below : Option Bool := none
  tag_if_below : Option String := none
  default_min_quality_score : Option Int := none
  deriving Repr, DecidableEq

/-- Embedding of the weighted-score dictionary under the score_weights key;
absent keys are modelled as none (score_weights.get with a default). -/
structure ScoreWeights where
  eeat : Option ℚ := none
  seo : Option ℚ := none
  aio : Option ℚ := none
  ai_search_visibility : Option ℚ := none
  deriving Repr, DecidableEq

/-- Embedding of the rulebook keys consumed by the gating and aggregation
code; a missing enforcement or score_weights key is none. -/
structure Rulebook where
  enforcement : Option EnforcementRules := none
  score_weights : Option ScoreWeights := none
  deriving Repr, DecidableEq

/-- Embedding of the decision dictionary returned by _make_publish_decision. -/
structure PublishDecision where
  action : String
  reason : String
  tags : List String
  status : String
  deriving Repr, DecidableEq

/-- Modelled from the spec: the quality checker module that computes the
enforcement passed flag (orion/quality/checker.py) is not present in the
sources (checker_backup.py is cut off before the enforcement section).
Spec 4.4 defines PASS exactly as score greater than or equal to the
enforcement threshold. -/
def enforcement_passed (score threshold : Int) : Bool :=
  threshold ≤ score

/-- Embedding of PipelineRunner._make_publish_decision
(orion/pipeline/run_pipeline.py lines 208-246). -/
def make_publish_decision (q : QualityResultView) (rulebook : Rulebook) : PublishDecision :=
  let score := q.score
  let threshold := q.enforcement.threshold
  let enforcement_rules := rulebook.enforcement.getD {}
  let block_below := enforcement_rules.block_publish_if_below.getD false
  let tag_below := enforcement_rules.tag_if_below.getD "review-needed"
  if q.enforcement.passed then
    { action := "publish"
      reason := s!"Quality score ({score}) meets threshold ({threshold})"
      tags := []
      status := "approved" }
  else if block_below then
    { action := "block"
      reason := s!"Quality score ({score}) below threshold ({threshold}) and blocking enabled"
      tags := [tag_below]
      status := "blocked" }
  else
    { action := "publish_with_review_tag"
      reason := s!"Quality score ({score}) below threshold ({threshold}), publishing with review tag"
      tags := [tag_below]
      status := "needs_review" }

/-- Outcome of PipelineRunner._publish_to_wordpress: either the early return
taken when the decision action is block (before any publisher call), or an
attempt that does reach wp_publisher.create_post. -/
inductive WordPressOutcome
  | blocked (message : String)
  | attempted
  deriving Repr, DecidableEq

/-- Embedding of the control flow of PipelineRunner._publish_to_wordpress
(orion/pipeline/run_pipeline.py lines 248-311): when the decision action is
block, the function returns at once and the publishing collaborator is not
invoked; otherwise it proceeds to call wp_publisher.create_post. -/
def publish_to_wordpress (decision : PublishDecision) : WordPressOutcome :=
  if decision.action = "block" then .blocked decision.reason else .attempted

/-- Whether the publishing collaborator is invoked by the outcome. -/
def publisherInvoked : WordPressOutcome → Bool
  | .blocked _ => false
  | .attempted => true

/-! ## Score aggregation (orion/quality/checker_backup.py lines 384-397) -/

/-- The Python int() conversion of a real number truncates toward zero. -/
def pythonTruncInt (q : ℚ) : Int :=
  if 0 ≤ q then ⌊q⌋ else ⌈q⌉

/-- Embedding of the final-score computation of check_quality
(orion/quality/checker_backup.py lines 384-397):
score_weights is rulebook.get with a default dictionary carrying
0.35/0.30/0.20/0.15, each weight is then read with score_weights.get and the
same per-key default, and final_score applies int() to the weighted sum. -/
def weighted_final_score (sw : Option ScoreWeights)
    (eeat_score seo_score aio_score ai_search_score : ℚ) : Int :=
  let w := sw.getD {}
  pythonTruncInt
    (eeat_score * (w.eeat.getD (35 / 100)) +
     seo_score * (w.seo.getD (30 / 100)) +
     aio_score * (w.aio.getD (20 / 100)) +
     ai_search_score * (w.ai_search_visibility.getD (15 / 100)))

/-! ## Conservative rulebook merge (modelled from the spec) -/

/-- Embedding of a numeric range rule such as seo.title_length. -/
structure RangeRule where
  min : Int
  max : Int
  deriving Repr, DecidableEq

/-- Modelled from the spec: the RulebookUpdater conservative merge of a
numeric range field (orion/research/update_rulebook.py is absent from the
sources; only its tests are present). Spec 4.5: new_min is the larger of the
current and proposed minima, new_max the smaller of the current and proposed
maxima. -/
def merge_range_rule (current proposed : RangeRule) : RangeRule :=
  { min := Max.max current.min proposed.min
    max := Min.min current.max proposed.max }

/-- Modelled from the spec: conservative merge of a numeric minimum-only
field such as internal_links_min; the merged value is the larger of the
current and proposed values. -/
def merge_minimum_field (current proposed : Int) : Int :=
  Max.max current proposed

/-- Modelled from the spec: conservative merge of a boolean requirement
field; the merged value is the disjunction of current and proposed. -/
def merge_bool_requirement (current proposed : Bool) : Bool :=
  current || proposed

/-- Modelled from the spec: conservative merge of a set/list field; the
merged value is the union of current and proposed, removing nothing. -/
def merge_list_field (current proposed : List String) : List String :=
  current ++ proposed.filter (fun x => !(current.contains x))

/-! ## Topic deduplication (orion/automate/run_pipeline.py lines 79-95) -/

/-- Embedding of a generated topic dictionary; topic.get with a default of
the empty string is modelled by the title field itself. -/
structure Topic where
  title : String
  angle : String := ""
  deriving Repr, DecidableEq

/-- Loop of deduplicate_topics: the accumulating seen_titles set is the
second argument; a topic is kept when its title is truthy (non-empty) and
not yet seen, and its title is then added to the seen set. -/
def dedupLoop : List Topic → List String → List Topic
  | [], _ => []
  | t :: ts, seen =>
    if t.title ≠ "" ∧ t.title ∉ seen then
      t :: dedupLoop ts (t.title :: seen)
    else
      dedupLoop ts seen

/-- Embedding of deduplicate_topics (orion/automate/run_pipeline.py lines
79-95); existing_titles defaults to the empty set at the call sites. -/
def deduplicate_topics (topics : List Topic) (existing_titles : List String) : List Topic :=
  dedupLoop topics existing_titles

/-! ## WordPress publisher (orion/publish/publisher_wp.py lines 35-60) -/

/-- Embedding of the WordPress part of the configuration object; a variable
that is unset is none and the empty string is falsy, as in Python. -/
structure WPConfig where
  wp_base_url : Option String := none
  wp_username : Option String := none
  wp_app_password : Option String := none
  deriving Repr, DecidableEq

/-- Python truthiness of an optional string. -/
def truthy : Option String → Bool
  | none => false
  | some v => v ≠ ""

/-- Embedding of config.has_wordpress_config: all of URL, username and app
password are set and non-empty. -/
def has_wordpress_config (c : WPConfig) : Bool :=
  truthy c.wp_base_url && truthy c.wp_username && truthy c.wp_app_password

/-- Embedding of the response dictionary of WordPressPublisher.create_post. -/
structure WPPostResponse where
  id : String
  link : String
  status : String
  title_rendered : String
  deriving Repr, DecidableEq

/-- Result of WordPressPublisher.create_post: either the deterministic
dry-run response, or a real HTTP POST to the WordPress REST endpoint (an
external effect, recorded with its request data). -/
inductive CreatePostResult
  | response (r : WPPostResponse)
  | apiCall (url title content status : String)
  deriving Repr, DecidableEq

/-- Embedding of WordPressPublisher.create_post
(orion/publish/publisher_wp.py lines 35-60): without complete WordPress
configuration it returns the dry-run dictionary with id dry-run, the
example link, the requested status and the rendered title; otherwise it
posts to the REST API. -/
def create_post (cfg : WPConfig) (title content status : String)
    (categories : Option (List String)) : CreatePostResult :=
  if has_wordpress_config cfg = false then
    .response
      { id := "dry-run"
        link := "https://example.com/dry-run-post"
        status := status
        title_rendered := title }
  else
    .apiCall (cfg.wp_base_url.getD "" ++ "/wp-json/wp/v2/posts") title content status

/-! ## Multi-site batch runner
(orion/automate/run_pipeline_multisite.py, orion/automate/run_pipeline.py)

The jitter behaviour is modelled as the trace of sleep events the runner
performs; random.randint draws are supplied by oracles (a batch draw and a
per-site draw indexed by submission position), and randint (0, 180) is
modelled by reducing the drawn value modulo 181. -/

/-- Sleep events performed by the pipeline runners. -/
inductive PipelineEvent
  | jitterSleep (seconds : Nat)
  | jitterSkipped
  deriving Repr, DecidableEq

/-- The enable_jitter parameter of run_pipeline defaults to True
(orion/automate/run_pipeline.py line 99); MultiSitePipelineRunner._run_site
calls run_pipeline without passing it (run_pipeline_multisite.py lines
200-205), so per-site runs receive this default. -/
def runPipelineDefaultEnableJitter : Bool := true

/-- Embedding of the jitter block at the start of run_pipeline
(orion/automate/run_pipeline.py lines 118-125): with enable_jitter the run
sleeps for randint (0, 180) seconds, otherwise it logs jitter_skipped. -/
def run_pipeline_jitter_events (enable_jitter : Bool) (draw : Nat) : List PipelineEvent :=
  if enable_jitter then [.jitterSleep (draw % 181)] else [.jitterSkipped]

/-- Sleep events of one MultiSitePipelineRunner._run_site call
(run_pipeline_multisite.py lines 167-205): the site pipeline is invoked with
the default enable_jitter, so it begins with its own jitter block; the
remaining pipeline stages perform no jitter sleeps. -/
def run_site_events (draw : Nat) : List PipelineEvent :=
  run_pipeline_jitter_events runPipelineDefaultEnableJitter draw

/-- Sleep events of MultiSitePipelineRunner.run_all_sites
(run_pipeline_multisite.py lines 88-98): one optional batch-level jitter
sleep of randint (0, 180) seconds when jitter_sleep is set and more than one
site is configured, followed by the per-site runs. Sequential mode
concatenates the site traces in submission order; parallel mode interleaves
the same per-site calls, leaving the multiset of sleep events unchanged, so
the count of jitter sleeps is faithful for both modes. -/
def run_all_sites_events (sites : List String) (jitter_sleep : Bool)
    (batchDraw : Nat) (siteDraw : Nat → Nat) : List PipelineEvent :=
  (if jitter_sleep ∧ 1 < sites.length then [.jitterSleep (batchDraw % 181)] else [])
    ++ (List.range sites.length).flatMap (fun i => run_site_events (siteDraw i))

/-- Number of actual jitter sleeps in a trace. -/
def countJitterSleeps (tr : List PipelineEvent) : Nat :=
  tr.countP (fun e => match e with | .jitterSleep _ => true | _ => false)

/-- Embedding of the per-site summary dictionaries stored in
MultiSitePipelineRunner.results; only the fields the batch summary reads are
kept. -/
structure SiteSummary where
  site : String
  total_stages : Nat
  failed_stages : Nat
  error : Option String := none
  deriving Repr, DecidableEq

/-- Embedding of the fallback dictionary recorded for a site whose run
raised an exception (run_pipeline_multisite.py lines 122-129 and 156-163). -/
def errorSummary (site_key : String) (e : String) : SiteSummary :=
  { site := site_key
    total_stages := 0
    failed_stages := 1
    error := some e }

/-- Outcome oracle for one _run_site call: either the summary it returns or
the exception message it raises. -/
def SiteOutcome := String → Except String SiteSummary

/-- Results dictionary built by the per-site try/except loops of
_run_sequential (run_pipeline_multisite.py lines 104-131) and _run_parallel
(lines 133-165): every site in the given processing order receives exactly
one entry, an exception being converted to the error summary. Sequential
mode processes self.sites in order; parallel mode processes the same site
set in completion order, so it is this function applied to a permutation of
the site list. -/
def collect_site_results (order : List String) (out : SiteOutcome) :
    List (String × SiteSummary) :=
  order.map fun s => (s, match out s with | .ok r => r | .error e => errorSummary s e)

/-- Embedding of the multisite_execution and aggregate_stats fields of the
summary returned by MultiSitePipelineRunner._generate_summary
(run_pipeline_multisite.py lines 207-251). -/
structure MultiSiteSummary where
  total_sites : Nat
  successful_sites : Nat
  failed_sites : Nat
  total_pipeline_stages : Nat
  total_failed_stages : Nat
  deriving Repr, DecidableEq

/-- Embedding of MultiSitePipelineRunner._generate_summary: a site counts as
successful when its recorded failed_stages is zero, failed_sites is the
difference, and the stage counts are summed over all recorded results. -/
def generate_summary (results : List (String × SiteSummary)) : MultiSiteSummary :=
  let total_sites := results.length
  let successful_sites := (results.filter (fun r => r.2.failed_stages = 0)).length
  { total_sites := total_sites
    successful_sites := successful_sites
    failed_sites := total_sites - successful_sites
    total_pipeline_stages := (results.map (fun r => r.2.total_stages)).sum
    total_failed_stages := (results.map (fun r => r.2.failed_stages)).sum }

/-- Embedding of _run_sequential followed by _generate_summary. -/
def run_sequential (sites : List String) (out : SiteOutcome) : MultiSiteSummary :=
  generate_summary (collect_site_results sites out)

/-! ## Site-list resolution (orion/automate/multisite.py lines 104-163) -/

/-- Environment model: an association list from variable names to values;
os.getenv is lookup and os.environ iteration enumerates the keys. -/
def EnvMap := List (String × String)

/-- Embedding of os.getenv with a default. -/
def getenvD (env : EnvMap) (key dflt : String) : String :=
  ((List.lookup key env).getD dflt)

/-- The six variable stems of the site-detection pattern of
_detect_sites_from_env (orion/automate/multisite.py line 153). -/
def siteVarStems : List String :=
  ["WP_URL", "WP_BASE_URL", "WP_USERNAME", "WP_APP_PASSWORD",
   "TOPIC_COUNT", "ENRICH_PROMPT_STRATEGY"]

/-- Removes an expected leading character sequence, returning the remainder
when the sequence is present. -/
def dropLeading : List Char → List Char → Option (List Char)
  | [], rest => some rest
  | _ :: _, [] => none
  | c :: cs, d :: ds => if c = d then dropLeading cs ds else none

/-- Embedding of the regular-expression match of _detect_sites_from_env for
one variable name: a stem, two underscores, then a non-empty remainder; the
extracted site key has its underscores turned back into hyphens. -/
def matchSiteVar (name : String) : Option String :=
  siteVarStems.findSome? fun stem =>
    match dropLeading (stem.data ++ ['_', '_']) name.data with
    | some rest =>
        if rest ≠ [] then
          some (String.mk (rest.map fun c => if c = '_' then '-' else c))
        else none
    | none => none

/-- Embedding of _detect_sites_from_env (orion/automate/multisite.py lines
139-163): every environment variable name matching the site pattern
contributes its site key. -/
def detect_sites_from_env (env : EnvMap) : List String :=
  (env.map Prod.fst).filterMap matchSiteVar

/-- The candidate sites collected by get_site_list (orion/automate/
multisite.py lines 104-136): the explicit comma-separated ORION_SITES list
(when the variable is truthy, split on commas, stripped, empty parts
dropped) followed by the auto-detected sites. -/
def candidate_sites (env : EnvMap) : List String :=
  let sites_env := getenvD env "ORION_SITES" ""
  let explicit_sites :=
    if sites_env ≠ "" then
      ((sites_env.splitOn ",").map String.trim).filter (fun s => s ≠ "")
    else []
  explicit_sites ++ detect_sites_from_env env

/-- The site set of get_site_list before sorting: the candidate sites with
duplicates removed (the Python code accumulates into a set); when nothing is
found, the single default site my-site. -/
def site_set (env : EnvMap) : List String :=
  if (candidate_sites env).dedup = [] then ["my-site"]
  else (candidate_sites env).dedup

/-- Embedding of get_site_list (orion/automate/multisite.py lines 104-136):
the collected site set, returned sorted ascending. -/
def get_site_list (env : EnvMap) : List String :=
  List.insertionSort (· ≤ ·) (site_set env)

/-! ## Fact extraction (orion/quality/checker_backup.py lines 176-230)

The three scanning passes of FactChecker.extract_claims are embedded as an
executable model of the regular expressions they use, over character lists
with explicit positions (re.finditer semantics: left-to-right scan, leftmost
match, resume at the match end). -/

/-- Python regex word characters (ASCII view of the w class). -/
def isWordChar (c : Char) : Bool := c.isAlphanum || c = '_'

/-- Maximal leading digit run of a character list. -/
def takeDigits (s : List Char) : List Char × List Char :=
  (s.takeWhile Char.isDigit, s.dropWhile Char.isDigit)

/-- Maximal leading whitespace run of a character list. -/
def takeSpaces (s : List Char) : List Char × List Char :=
  (s.takeWhile Char.isWhitespace, s.dropWhile Char.isWhitespace)

/-- Digit characters to a natural number. -/
def digitsToNat (cs : List Char) : Nat :=
  cs.foldl (fun n c => 10 * n + (c.toNat - 48)) 0

/-- Decimal number characters (digits with an optional fraction part) to a
rational, the exact value the Python float() conversion gives them. -/
def parseDecimal (cs : List Char) : ℚ :=
  let intPart := cs.takeWhile Char.isDigit
  let rest := cs.dropWhile Char.isDigit
  match rest with
  | '.' :: frac => (digitsToNat intPart : ℚ) + (digitsToNat frac : ℚ) / ((10 : ℚ) ^ frac.length)
  | _ => (digitsToNat intPart : ℚ)

/-- A word boundary before a word character: the previous character is
absent or not a word character. -/
def boundaryBefore (prev : Option Char) : Bool :=
  match prev with
  | none => true
  | some p => !isWordChar p

/-- A word boundary after a word character: the following text is empty or
begins with a non-word character. -/
def boundaryAfter : List Char → Bool
  | [] => true
  | c :: _ => !isWordChar c

/-- Generic re.finditer driver: walks the text, keeping the previous
character and the absolute position, calling a matcher on every suffix; on a
match of length len it records (start, end, payload) and resumes after the
match, otherwise it advances one character. All embedded patterns only
produce matches of positive length; a zero length is stepped over by one
character, which is also what finditer does with empty matches. Every step
consumes at least one character, so fuel equal to the text length (supplied
by findAllMatches) never runs out. -/
def scanMatches (tryAt : Option Char → List Char → Option (Nat × γ)) :
    Nat → Option Char → Nat → List Char → List ((Nat × Nat) × γ)
  | 0, _, _, _ => []
  | _, _, _, [] => []
  | fuel + 1, prev, pos, c :: rest =>
    match tryAt prev (c :: rest) with
    | some (len, payload) =>
        let step := Max.max 1 len
        ((pos, pos + len), payload) ::
          scanMatches tryAt fuel ((List.take step (c :: rest)).getLast?) (pos + step)
            (List.drop step (c :: rest))
    | none => scanMatches tryAt fuel (some c) (pos + 1) rest

/-- All matches of a pattern in a text, in re.finditer order. -/
def findAllMatches (tryAt : Option Char → List Char → Option (Nat × γ))
    (text : List Char) : List ((Nat × Nat) × γ) :=
  scanMatches tryAt text.length none 0 text

/-- Matcher for the percentage pattern of extract_claims: a word boundary, a
digit run with an optional fraction, optional whitespace, then a percent
sign; the payload is the captured number. -/
def tryPercentAt (prev : Option Char) (s : List Char) : Option (Nat × List Char) :=
  if boundaryBefore prev then
    let (ds, r1) := takeDigits s
    if ds = [] then none else
      let (frac, r2) :=
        match r1 with
        | '.' :: r =>
            let (fs, rr) := takeDigits r
            if fs = [] then (([] : List Char), r1) else ('.' :: fs, rr)
        | _ => (([] : List Char), r1)
      let (sp, r3) := takeSpaces r2
      match r3 with
      | '%' :: _ => some (ds.length + frac.length + sp.length + 1, ds ++ frac)
      | _ => none
  else none

/-- Matcher for the year pattern of extract_claims: a word boundary, then 19
or 20, two further digits, and a closing word boundary; the payload is the
four-digit year. -/
def tryYearAt (prev : Option Char) (s : List Char) : Option (Nat × Nat) :=
  if boundaryBefore prev then
    match s with
    | a :: b :: c :: d :: rest =>
        if ((a = '1' ∧ b = '9') ∨ (a = '2' ∧ b = '0')) ∧ c.isDigit ∧ d.isDigit
            ∧ boundaryAfter rest then
          some (4, digitsToNat [a, b, c, d])
        else none
    | _ => none
  else none

/-- All ways the comma-group star of the statistics pattern can consume
input, as (consumed, remainder) pairs ordered from most groups to none, the
order a greedy star backtracks in. Each group is a comma and exactly three
digits. -/
def commaGroupSplits : List Char → List (List Char × List Char)
  | ',' :: a :: b :: c :: rest =>
      (if a.isDigit ∧ b.isDigit ∧ c.isDigit then
        (commaGroupSplits rest).map fun pr => (',' :: a :: b :: c :: pr.1, pr.2)
      else []) ++ [([], ',' :: a :: b :: c :: rest)]
  | s => [([], s)]

/-- The six unit words of the statistics pattern, tried in alternation
order. -/
def statUnitWords : List String :=
  ["people", "users", "customers", "studies", "reports", "cases"]

/-- Matches one alternation word case-insensitively at the front of the
text, returning the consumed characters as they appear in the text. -/
def matchUnitWord (s : List Char) : Option (List Char) :=
  statUnitWords.findSome? fun w =>
    let taken := s.take w.length
    if taken.length = w.length ∧ taken.map Char.toLower = w.data.map Char.toLower then
      some taken
    else none

/-- Matcher for the statistics pattern of extract_claims: a word boundary, a
one-to-three digit group, comma groups, an optional fraction, whitespace and
a unit word, enumerating the backtracking alternatives in the order the
regex engine tries them (longer digit group first, more comma groups first,
fraction present first). The payload is the captured number
(group 1) and the matched unit word as it appears in the text. -/
def tryStatAt (prev : Option Char) (s : List Char) : Option (Nat × (List Char × List Char)) :=
  if boundaryBefore prev then
    let run := (s.takeWhile Char.isDigit).length
    let lens := (List.range (Min.min run 3)).map (fun i => Min.min run 3 - i)
    lens.findSome? fun dlen =>
      let ds := s.take dlen
      let afterDigits := s.drop dlen
      (commaGroupSplits afterDigits).findSome? fun pr =>
        let fracChoices :=
          match pr.2 with
          | '.' :: r =>
              let (fs, rr) := takeDigits r
              if fs = [] then [(([] : List Char), pr.2)]
              else [('.' :: fs, rr), ([], pr.2)]
          | _ => [(([] : List Char), pr.2)]
        fracChoices.findSome? fun fr =>
          let (sp, r3) := takeSpaces fr.2
          if sp = [] then none else
            match matchUnitWord r3 with
            | some w =>
                some (dlen + pr.1.length + fr.1.length + sp.length + w.length,
                  (ds ++ pr.1 ++ fr.1, w))
            | none => none
  else none

/-- Index of the first closing angle bracket of a character list. -/
def findGtIndex (s : List Char) : Option Nat :=
  s.findIdx? (fun c => c = '>')

/-- Embedding of the HTML-stripping substitution applied by extract_claims
and the syllable counter: an opening angle bracket followed by at least one
non-bracket character and a closing bracket is deleted; an unmatched opening
bracket is kept. Each step consumes at least one character, so fuel equal to
the text length (supplied by stripHtml) never runs out. -/
def stripHtmlAux : Nat → List Char → List Char
  | 0, _ => []
  | _, [] => []
  | fuel + 1, c :: rest =>
    if c = '<' then
      match findGtIndex rest with
      | some idx =>
          if 1 ≤ idx then stripHtmlAux fuel (rest.drop (idx + 1))
          else c :: stripHtmlAux fuel rest
      | none => c :: stripHtmlAux fuel rest
    else c :: stripHtmlAux fuel rest

/-- HTML-stripping over a whole character list. -/
def stripHtml (s : List Char) : List Char :=
  stripHtmlAux s.length s

/-- Python str.strip: whitespace removed from both ends. -/
def pyStrip (s : List Char) : List Char :=
  ((s.dropWhile Char.isWhitespace).reverse.dropWhile Char.isWhitespace).reverse

/-- Embedding of FactChecker._get_context (checker_backup.py lines 225-230):
the stripped slice from 50 characters before the match to 50 characters
after it. -/
def get_context (text : List Char) (start stop : Nat) : String :=
  let context_start := start - 50
  let context_stop := Min.min text.length (stop + 50)
  String.mk (pyStrip ((text.drop context_start).take (context_stop - context_start)))

/-- The value field of an extracted claim: a float for percentages, the
comma-free digit string for statistics, an int for year references. -/
inductive ClaimValue
  | percent (q : ℚ)
  | stat (s : String)
  | year (n : Nat)
  deriving Repr, DecidableEq

/-- Embedding of the claim dictionaries built by FactChecker.extract_claims. -/
structure ExtractedClaim where
  claim : String
  claim_type : String
  value : ClaimValue
  context : String
  needs_review : Bool
  note : Option String := none
  deriving Repr, DecidableEq

/-- The slice of the text a match covers, as the claim string. -/
def matchedText (text : List Char) (start stop : Nat) : String :=
  String.mk ((text.drop start).take (stop - start))

/-- Embedding of FactChecker.extract_claims (checker_backup.py lines
179-223): HTML is stripped, then the percentage pass, the statistics pass
and the year pass each append their claims in match order; years strictly
before 2020 are kept with the outdated note, later years produce no claim. -/
def extract_claims (text : String) : List ExtractedClaim :=
  let clean := stripHtml text.data
  let percentClaims :=
    (findAllMatches tryPercentAt clean).map fun m =>
      { claim := matchedText clean m.1.1 m.1.2
        claim_type := "percentage"
        value := .percent (parseDecimal m.2)
        context := get_context clean m.1.1 m.1.2
        needs_review := true : ExtractedClaim }
  let statClaims :=
    (findAllMatches tryStatAt clean).map fun m =>
      { claim := matchedText clean m.1.1 m.1.2
        claim_type := "statistic"
        value := .stat (String.mk (m.2.1.filter (fun c => c ≠ ',')))
        context := get_context clean m.1.1 m.1.2
        needs_review := true : ExtractedClaim }
  let yearClaims :=
    (findAllMatches tryYearAt clean).filterMap fun m =>
      if m.2 < 2020 then
        some { claim := matchedText clean m.1.1 m.1.2
               claim_type := "date_reference"
               value := .year m.2
               context := get_context clean m.1.1 m.1.2
               needs_review := true
               note := some "Potentially outdated reference" : ExtractedClaim }
      else none
  percentClaims ++ statClaims ++ yearClaims

/-! ## Quality assessment entry points
(orion/quality/checker_backup.py lines 233-401 and 403-463) -/

/-- Embedding of the metadata dictionary passed to check_quality. -/
structure ArticleMetadata where
  title : String
  meta_description : String
  deriving Repr, DecidableEq

/-- Embedding of the strategy keys check_quality reads. -/
structure SiteStrategy where
  originality_provider : Option String := none
  deriving Repr, DecidableEq

/-- Embedding of an issue dictionary of the quality report. -/
structure QualityIssue where
  category : String
  severity : String
  message : String
  suggestion : String
  deriving Repr, DecidableEq

/-- The quality report dictionary the docstring of check_quality promises:
a score, a per-category breakdown and the ordered issues. -/
structure QualityReport where
  score : Int
  breakdown : List (String × Int)
  issues : List QualityIssue
  deriving Repr, DecidableEq

/-- Embedding of the module-level check_quality (checker_backup.py lines
233-401). The body computes the readability metrics, the issue list, the
four sub-scores and the weighted final score (the aggregation is embedded
separately as weighted_final_score), and then stops at the enforcement
lookup: the function body ends there without any return statement, so every
call returns None. -/
def check_quality (article_text : String) (metadata : ArticleMetadata)
    (primary_keyword : String) (strategy : SiteStrategy) (rulebook : Rulebook) :
    Option QualityReport :=
  none

/-- Embedding of the wrapper result of QualityChecker.check_quality: the
fields the fallback branches populate. -/
structure WrapperReport where
  total_score : Int
  error : Option String
  breakdown : List (String × Int)
  deriving Repr, DecidableEq

/-- Embedding of QualityChecker.check_quality (checker_backup.py lines
412-463): it calls the module-level check_quality and, when that returns
None, substitutes a default dictionary with total_score 50, an error note
and an empty breakdown. -/
def quality_checker_check_quality (body title meta_description primary_keyword : String)
    (strategy : SiteStrategy) (rulebook : Rulebook) : WrapperReport :=
  match check_quality body ⟨title, meta_description⟩ primary_keyword strategy rulebook with
  | none =>
      { total_score := 50
        error := some "check_quality function returned None"
        breakdown := [] }
  | some r =>
      { total_score := r.score
        error := none
        breakdown := r.breakdown }

/-! ## Instantiations used by the theorems below -/

/-- The publish decision for given score, threshold, blocking flag and
review tag: make_publish_decision applied to a quality result whose passed
flag was computed from score and threshold, and to a rulebook carrying the
given enforcement settings. -/
def gateDecision (score threshold : Int) (block_below : Bool) (tag : String) : PublishDecision :=
  make_publish_decision
    { score := score
      enforcement := { passed := enforcement_passed score threshold, threshold := threshold } }
    { enforcement := some { block_publish_if_below := some block_below, tag_if_below := some tag } }

/-- A concrete two-site outcome oracle: the site beta raises, every other
site returns a clean five-stage summary. -/
def demoOutcome : SiteOutcome := fun site_key =>
  if site_key = "beta" then .error "boom"
  else .ok { site := site_key, total_stages := 5, failed_stages := 0, error := none }

/-! # Theorems -/

/-- C1: the publish-decision function is total and deterministic in
(score, threshold, block_below, review tag): score at or above the threshold
gives action publish with no tags; score below the threshold with blocking
enabled gives action block with the review tag, and the publishing
collaborator is not invoked; score below the threshold without blocking
gives action publish_with_review_tag with the review tag. -/
theorem publish_gate_state_machine (score threshold : Int) (block_below : Bool) (tag : String) :
    (threshold ≤ score →
      (gateDecision score threshold block_below tag).action = "publish" ∧
      (gateDecision score threshold block_below tag).tags = []) ∧
    (score < threshold → block_below = true →
      (gateDecision score threshold block_below tag).action = "block" ∧
      (gateDecision score threshold block_below tag).tags = [tag] ∧
      publisherInvoked (publish_to_wordpress (gateDecision score threshold block_below tag)) = false) ∧
    (score < threshold → block_below = false →
      (gateDecision score threshold block_below tag).action = "publish_with_review_tag" ∧
      (gateDecision score threshold block_below tag).tags = [tag]) := by
  refine ⟨fun h => ?_, fun h hb => ?_, fun h hb => ?_⟩
  · simp [gateDecision, make_publish_decision, enforcement_passed, h]
  · have hns : ¬ threshold ≤ score := not_le.mpr h
    simp [gateDecision, make_publish_decision, enforcement_passed, publish_to_wordpress,
      publisherInvoked, hns, hb]
  · have hns : ¬ threshold ≤ score := not_le.mpr h
    simp [gateDecision, make_publish_decision, enforcement_passed, hns, hb]

/-- Witness for C1: scenario B of the spec, threshold 80, score 60,
blocking enabled. -/
theorem publish_gate_state_machine_witness :
    (gateDecision 60 80 true "review-needed").action = "block" ∧
    (gateDecision 60 80 true "review-needed").tags = ["review-needed"] ∧
    publisherInvoked (publish_to_wordpress (gateDecision 60 80 true "review-needed")) = false :=
  (publish_gate_state_machine 60 80 true "review-needed").2.1 (by decide) rfl

/-- C2 counterexample: with the default weights and sub-scores (2, 0, 0, 0)
the weighted sum is 0.7; the int() truncation in the code yields 0 while the
claimed round would yield 1, so the aggregated score is not round of the
weighted sum. -/
theorem weighted_score_truncates_not_rounds :
    weighted_final_score none 2 0 0 0 = 0 ∧
    round ((2 : ℚ) * (35 / 100) + (0 : ℚ) * (30 / 100) + (0 : ℚ) * (20 / 100) +
      (0 : ℚ) * (15 / 100)) = 1 := by
  constructor
  · norm_num [weighted_final_score, pythonTruncInt]
  · norm_num [round_eq]

/-- C2 amended: the aggregated overall score equals the truncation toward
zero (Python int()) of the weighted sum of the four sub-scores, with the
weights taken from score_weights or the 0.35/0.30/0.20/0.15 defaults when
absent; whenever the four weights are nonnegative and sum to 1 within
0.001, and the sub-scores lie in [0, 100], the result is an integer in
[0, 100]. -/
theorem weighted_score_trunc_and_range (sw : Option ScoreWeights) (e s a v we ws wa wv : ℚ)
    (hwe : we = (sw.getD {}).eeat.getD (35 / 100))
    (hws : ws = (sw.getD {}).seo.getD (30 / 100))
    (hwa : wa = (sw.getD {}).aio.getD (20 / 100))
    (hwv : wv = (sw.getD {}).ai_search_visibility.getD (15 / 100))
    (hwe0 : 0 ≤ we) (hws0 : 0 ≤ ws) (hwa0 : 0 ≤ wa) (hwv0 : 0 ≤ wv)
    (hsum : |we + ws + wa + wv - 1| ≤ 1 / 1000)
    (he0 : 0 ≤ e) (he1 : e ≤ 100) (hs0 : 0 ≤ s) (hs1 : s ≤ 100)
    (ha0 : 0 ≤ a) (ha1 : a ≤ 100) (hv0 : 0 ≤ v) (hv1 : v ≤ 100) :
    weighted_final_score sw e s a v = pythonTruncInt (e * we + s * ws + a * wa + v * wv) ∧
    0 ≤ weighted_final_score sw e s a v ∧ weighted_final_score sw e s a v ≤ 100 := by
  subst hwe hws hwa hwv
  refine ⟨rfl, ?_, ?_⟩ <;>
  · have hq0 : 0 ≤ e * ((sw.getD {}).eeat.getD (35 / 100)) +
        s * ((sw.getD {}).seo.getD (30 / 100)) +
        a * ((sw.getD {}).aio.getD (20 / 100)) +
        v * ((sw.getD {}).ai_search_visibility.getD (15 / 100)) := by
      have := mul_nonneg he0 hwe0
      have := mul_nonneg hs0 hws0
      have := mul_nonneg ha0 hwa0
      have := mul_nonneg hv0 hwv0
      linarith
    have hq1 : e * ((sw.getD {}).eeat.getD (35 / 100)) +
        s * ((sw.getD {}).seo.getD (30 / 100)) +
        a * ((sw.getD {}).aio.getD (20 / 100)) +
        v * ((sw.getD {}).ai_search_visibility.getD (15 / 100)) < 101 := by
      have h1 := mul_le_mul_of_nonneg_right he1 hwe0
      have h2 := mul_le_mul_of_nonneg_right hs1 hws0
      have h3 := mul_le_mul_of_nonneg_right ha1 hwa0
      have h4 := mul_le_mul_of_nonneg_right hv1 hwv0
      have h5 := (abs_le.mp hsum).2
      linarith
    have heq : weighted_final_score sw e s a v =
        ⌊e * ((sw.getD {}).eeat.getD (35 / 100)) +
          s * ((sw.getD {}).seo.getD (30 / 100)) +
          a * ((sw.getD {}).aio.getD (20 / 100)) +
          v * ((sw.getD {}).ai_search_visibility.getD (15 / 100))⌋ := by
      simp only [weighted_final_score, pythonTruncInt, if_pos hq0]
    rw [heq]
    first
    | exact Int.floor_nonneg.mpr hq0
    | · have : (⌊e * ((sw.getD {}).eeat.getD (35 / 100)) +
            s * ((sw.getD {}).seo.getD (30 / 100)) +
            a * ((sw.getD {}).aio.getD (20 / 100)) +
            v * ((sw.getD {}).ai_search_visibility.getD (15 / 100))⌋ : ℤ) < 101 := by
          refine Int.floor_lt.mpr ?_
          push_cast
          exact hq1
        omega

/-- Witness for C2 amended: the default weights with every sub-score 50. -/
theorem weighted_score_trunc_and_range_witness :
    0 ≤ weighted_final_score none 50 50 50 50 ∧ weighted_final_score none 50 50 50 50 ≤ 100 := by
  have h := weighted_score_trunc_and_range none 50 50 50 50
    (35 / 100) (30 / 100) (20 / 100) (15 / 100) rfl rfl rfl rfl
    (by norm_num) (by norm_num) (by norm_num) (by norm_num) (by norm_num)
    (by norm_num) (by norm_num) (by norm_num) (by norm_num)
    (by norm_num) (by norm_num) (by norm_num) (by norm_num)
  exact ⟨h.2.1, h.2.2⟩

/-- C3: at a concrete article the module-level check_quality produces no
report at all (its body ends without a return statement), and the
QualityChecker wrapper substitutes the fallback dictionary with total_score
50 and an empty breakdown instead of a populated QualityReport. -/
theorem check_quality_returns_no_report :
    check_quality "Best hiking trails for beginners." ⟨"Hiking", "A guide to trails."⟩
      "hiking" {} {} = none ∧
    quality_checker_check_quality "Best hiking trails for beginners." "Hiking"
      "A guide to trails." "hiking" {} {} =
      { total_score := 50
        error := some "check_quality function returned None"
        breakdown := [] } :=
  ⟨rfl, rfl⟩

/-- C4: the conservative merge never relaxes a constraint: merged range
minima are at least the current minima and merged range maxima at most the
current maxima, a merged minimum-only field is at least the current value (it
is the maximum of current and proposed), boolean requirements that are true
stay true, list fields keep all current and proposed elements, and merging a
proposed internal_links_min of 2 into a current value of 4 leaves 4. -/
theorem conservative_merge_monotone (current proposed : RangeRule)
    (cm pm : Int) (cb pb : Bool) (cl pl : List String) :
    current.min ≤ (merge_range_rule current proposed).min ∧
    (merge_range_rule current proposed).max ≤ current.max ∧
    cm ≤ merge_minimum_field cm pm ∧
    (cb = true → merge_bool_requirement cb pb = true) ∧
    cl ⊆ merge_list_field cl pl ∧
    pl ⊆ merge_list_field cl pl ∧
    merge_minimum_field 4 2 = 4 := by
  refine ⟨le_max_left _ _, min_le_left _ _, le_max_left _ _, ?_, ?_, ?_, by decide⟩
  · intro h
    simp [merge_bool_requirement, h]
  · exact List.subset_append_left _ _
  · intro x hx
    by_cases hmem : x ∈ cl
    · exact List.mem_append_left _ hmem
    · refine List.mem_append_right _ ?_
      rw [List.mem_filter]
      exact ⟨hx, by simpa using hmem⟩

/-- Witness for C4: scenario D of the spec, current 4 and proposed 2. -/
theorem conservative_merge_monotone_witness : merge_minimum_field 4 2 = 4 :=
  (conservative_merge_monotone ⟨40, 60⟩ ⟨45, 55⟩ 4 2 true true ["a"] ["b"]).2.2.2.2.2.2

/-- C5: at the failing input (a two-site batch with jitter enabled and
drawn delays 0) the multi-site runner performs three jitter sleeps, not at
most one: one before the batch and one more inside the pipeline run of
every site, because _run_site leaves the single-site enable_jitter at its default
True. -/
theorem multisite_batch_jitter_count :
    countJitterSleeps (run_all_sites_events ["site-a", "site-b"] true 0 (fun _ => 0)) = 3 := by
  decide

/-- C8: without complete WordPress credentials, create_post raises nothing
and returns the deterministic dry-run response: id dry-run, the example
link, the requested status and the given title. -/
theorem create_post_dry_run (cfg : WPConfig) (title content status : String)
    (categories : Option (List String)) (h : has_wordpress_config cfg = false) :
    create_post cfg title content status categories =
      .response
        { id := "dry-run"
          link := "https://example.com/dry-run-post"
          status := status
          title_rendered := title } := by
  simp [create_post, h]

/-- Witness for C8: a fully unset WordPress configuration. -/
theorem create_post_dry_run_witness :
    create_post {} "New Post" "Body text." "draft" none =
      .response
        { id := "dry-run"
          link := "https://example.com/dry-run-post"
          status := "draft"
          title_rendered := "New Post" } :=
  create_post_dry_run {} "New Post" "Body text." "draft" none rfl

/-- Helper: looking up a site in the collected results of a processing
order without duplicates returns exactly the entry built from its outcome. -/
theorem lookup_collect_site_results (order : List String) (out : SiteOutcome) (s : String)
    (hnd : order.Nodup) (hs : s ∈ order) :
    (collect_site_results order out).lookup s =
      some (match out s with | .ok r => r | .error e => errorSummary s e) := by
  induction order with
  | nil => cases hs
  | cons a l ih =>
    rcases List.mem_cons.mp hs with h | h
    · subst h
      simp [collect_site_results, List.lookup]
    · have hne : s ≠ a := fun hh => (List.nodup_cons.mp hnd).1 (hh ▸ h)
      have : (s == a) = false := beq_eq_false_iff_ne.mpr hne
      simp only [collect_site_results, List.map_cons, List.lookup, this]
      exact ih (List.nodup_cons.mp hnd).2 h

/-- C6: a raised exception in the run of one site never aborts the batch: with
any processing order (submission order for sequential mode, any completion
order for parallel mode), the failing site is recorded with its error
message and failed count one, every site in the batch has an entry in the
results, and the summary carries the full site total and a positive failed
count. -/
theorem site_failure_never_aborts_batch (sites : List String) (out : SiteOutcome)
    (s e : String) (order : List String)
    (hnd : sites.Nodup) (hs : s ∈ sites) (he : out s = .error e)
    (hperm : order.Perm sites) :
    (collect_site_results sites out).lookup s = some (errorSummary s e) ∧
    (collect_site_results sites out).length = sites.length ∧
    sites.all (fun t => ((collect_site_results sites out).lookup t).isSome) = true ∧
    (collect_site_results order out).lookup s = some (errorSummary s e) ∧
    (run_sequential sites out).total_sites = sites.length ∧
    (generate_summary (collect_site_results order out)).total_sites = sites.length ∧
    1 ≤ (run_sequential sites out).failed_sites := by
  have hondup : order.Nodup := hperm.nodup_iff.mpr hnd
  have hos : s ∈ order := hperm.mem_iff.mpr hs
  have hlook : (collect_site_results sites out).lookup s = some (errorSummary s e) := by
    rw [lookup_collect_site_results sites out s hnd hs, he]
  refine ⟨hlook, by simp [collect_site_results], ?_, ?_, ?_, ?_, ?_⟩
  · rw [List.all_eq_true]
    intro t ht
    rw [lookup_collect_site_results sites out t hnd ht]
    rfl
  · rw [lookup_collect_site_results order out s hondup hos, he]
  · simp [run_sequential, generate_summary, collect_site_results]
  · simp [generate_summary, collect_site_results, hperm.length_eq]
  · have hmem : (s, errorSummary s e) ∈ collect_site_results sites out := by
      have := List.mem_map_of_mem
        (fun t => (t, match out t with | .ok r => r | .error e => errorSummary t e)) hs
      simpa [collect_site_results, he] using this
    have hlt : ((collect_site_results sites out).filter
        (fun r => r.2.failed_stages = 0)).length < (collect_site_results sites out).length := by
      rw [List.length_filter_lt_length_iff_exists]
      exact ⟨(s, errorSummary s e), hmem, by simp [errorSummary]⟩
    simp only [run_sequential, generate_summary]
    omega

/-- Witness for C6: the two-site batch alpha/beta with the demo oracle, in
which beta raises, processed in completion order beta then alpha. -/
theorem site_failure_never_aborts_batch_witness :
    (collect_site_results ["alpha", "beta"] demoOutcome).lookup "beta" =
      some (errorSummary "beta" "boom") ∧
    1 ≤ (run_sequential ["alpha", "beta"] demoOutcome).failed_sites :=
  ⟨(site_failure_never_aborts_batch ["alpha", "beta"] demoOutcome "beta" "boom"
      ["beta", "alpha"] (by decide) (by decide) rfl (by decide)).1,
   (site_failure_never_aborts_batch ["alpha", "beta"] demoOutcome "beta" "boom"
      ["beta", "alpha"] (by decide) (by decide) rfl (by decide)).2.2.2.2.2.2⟩

/-- Helper: the deduplication loop returns a sublist of its input. -/
theorem dedupLoop_sublist (ts : List Topic) : ∀ seen, List.Sublist (dedupLoop ts seen) ts := by
  induction ts with
  | nil => intro seen; simp [dedupLoop]
  | cons t ts ih =>
    intro seen
    by_cases h : t.title ≠ "" ∧ t.title ∉ seen
    · rw [dedupLoop, if_pos h]
      exact List.Sublist.cons₂ t (ih _)
    · rw [dedupLoop, if_neg h]
      exact List.Sublist.cons t (ih _)

/-- Helper: every topic kept by the deduplication loop has a non-empty
title that was not in the seen set the loop started from. -/
theorem dedupLoop_mem (ts : List Topic) :
    ∀ seen u, u ∈ dedupLoop ts seen → u.title ∉ seen ∧ u.title ≠ "" := by
  induction ts with
  | nil => intro seen u h; simp [dedupLoop] at h
  | cons t ts ih =>
    intro seen u h
    by_cases hc : t.title ≠ "" ∧ t.title ∉ seen
    · rw [dedupLoop, if_pos hc] at h
      rcases List.mem_cons.mp h with rfl | h2
      · exact ⟨hc.2, hc.1⟩
      · have hu := ih _ u h2
        exact ⟨fun hm => hu.1 (List.mem_cons_of_mem _ hm), hu.2⟩
    · rw [dedupLoop, if_neg hc] at h
      exact ih _ u h

/-- Helper: the titles kept by the deduplication loop are pairwise
distinct. -/
theorem dedupLoop_titles_nodup (ts : List Topic) :
    ∀ seen, ((dedupLoop ts seen).map Topic.title).Nodup := by
  induction ts with
  | nil => intro seen; simp [dedupLoop]
  | cons t ts ih =>
    intro seen
    by_cases hc : t.title ≠ "" ∧ t.title ∉ seen
    · rw [dedupLoop, if_pos hc]
      simp only [List.map_cons, List.nodup_cons]
      refine ⟨fun hmem => ?_, ih _⟩
      rcases List.mem_map.mp hmem with ⟨u, hu, heq⟩
      exact (dedupLoop_mem ts _ u hu).1 (heq ▸ List.mem_cons_self _ _)
    · rw [dedupLoop, if_neg hc]
      exact ih _

/-- C7: deduplication returns a sublist of the input batch (so relative
first-occurrence order is preserved), its titles are pairwise distinct, and
no returned title belongs to the already-seen set. -/
theorem dedup_titles_pairwise_distinct (topics : List Topic) (existing_titles : List String) :
    List.Sublist (deduplicate_topics topics existing_titles) topics ∧
    ((deduplicate_topics topics existing_titles).map Topic.title).Nodup ∧
    (deduplicate_topics topics existing_titles).all
      (fun t => !(existing_titles.contains t.title)) = true := by
  refine ⟨dedupLoop_sublist _ _, dedupLoop_titles_nodup _ _, ?_⟩
  rw [List.all_eq_true]
  intro t ht
  have hni := (dedupLoop_mem topics existing_titles t ht).1
  simpa using hni

/-- C10: site-list resolution always yields a non-empty, ascending-sorted,
duplicate-free list of site keys, and with no explicit ORION_SITES value
and no site-specific variable present it yields exactly the default
list my-site. -/
theorem get_site_list_sorted_nonempty (env : EnvMap) :
    get_site_list env ≠ [] ∧
    (get_site_list env).Sorted (· ≤ ·) ∧
    (get_site_list env).Nodup ∧
    ((getenvD env "ORION_SITES" "" = "" ∧ detect_sites_from_env env = []) →
      get_site_list env = ["my-site"]) := by
  have hperm : List.Perm (get_site_list env) (site_set env) :=
    List.perm_insertionSort (· ≤ ·) (site_set env)
  have hne : site_set env ≠ [] := by
    by_cases h : (candidate_sites env).dedup = []
    · simp [site_set, h]
    · simp [site_set, h]
  have hnd : (site_set env).Nodup := by
    by_cases h : (candidate_sites env).dedup = []
    · simp [site_set, h]
    · simp only [site_set, if_neg h]
      exact List.nodup_dedup _
  refine ⟨?_, List.sorted_insertionSort _ _, hperm.nodup_iff.mpr hnd, ?_⟩
  · intro hnil
    exact hne (List.eq_nil_of_length_eq_zero (by rw [← hperm.length_eq, hnil, List.length_nil]))
  · rintro ⟨h1, h2⟩
    have hcand : candidate_sites env = [] := by
      simp [candidate_sites, h1, h2]
    have hset : site_set env = ["my-site"] := by
      simp [site_set, hcand]
    rw [get_site_list, hset]
    rfl

/-- Witness for C10: an environment carrying only an unrelated variable. -/
theorem get_site_list_sorted_nonempty_witness :
    get_site_list [("PATH", "/usr/bin")] = ["my-site"] :=
  (get_site_list_sorted_nonempty [("PATH", "/usr/bin")]).2.2.2 ⟨rfl, rfl⟩

/-- C9: on the scenario text, the fact extractor returns exactly two
claims, in order: a percentage claim of value 85 and a date_reference claim
of value 2019 flagged for review with the potentially-outdated note, each
carrying its context window (here the whole sentence). -/
theorem extract_claims_scenario_e :
    extract_claims "Studies show 85% improvement in 2019." =
      [{ claim := "85%"
         claim_type := "percentage"
         value := .percent 85
         context := "Studies show 85% improvement in 2019."
         needs_review := true
         note := none },
       { claim := "2019"
         claim_type := "date_reference"
         value := .year 2019
         context := "Studies show 85% improvement in 2019."
         needs_review := true
         note := some "Potentially outdated reference" }] := by
  rfl
